import Mathlib

/-!
Shallow embedding of the Herbie telemetry agent
(`apps/tracker/herbie_agent/`): the lap validator, the lap processing /
upload pipeline, the scoring-snapshot trigger logic, the HTTP retry
policy, the rate limiter and the exponential backoff, together with
theorems settling the specification claims about them.

Python floats are modelled as rationals (`ℚ`); the floating-point
square root `x ** 0.5` is an irrational operation, so every definition
that needs it is parameterised by a function `sq : ℚ → ℚ` standing for
it, and the theorems hold for every such function.  Python exceptions
are modelled with `Except`: the only exception reachable inside the
validator is `ZeroDivisionError`, raised by `/` when the denominator
is zero.
-/

namespace Herbie

/-- Python exceptions that the embedded code can raise. -/
inductive PyError
  | zeroDivisionError
  deriving Repr, DecidableEq

/-- Python true division `a / b`: raises `ZeroDivisionError` when `b = 0`. -/
def pyDiv (a b : ℚ) : Except PyError ℚ :=
  if b = 0 then Except.error PyError.zeroDivisionError else Except.ok (a / b)

/-! ## utils.py -/

/-- `utils.is_valid_position`: a 3-D position is valid when it is not the
origin and no coordinate exceeds 1 000 000 in absolute value. -/
def is_valid_position (position : ℚ × ℚ × ℚ) : Bool :=
  let (x, y, z) := position
  if x = 0 ∧ y = 0 ∧ z = 0 then false
  else if |x| > 1000000 ∨ |y| > 1000000 ∨ |z| > 1000000 then false
  else true

/-- `utils.is_valid_telemetry_value` on an already-numeric value:
checks `min_val ≤ value ≤ max_val`. -/
def is_valid_telemetry_value (value min_val max_val : ℚ) : Bool :=
  min_val ≤ value ∧ value ≤ max_val

/-- `utils.calculate_distance` between two 3-D positions, with `sq`
standing for the floating-point square root `(...) ** 0.5`. -/
def calculate_distance (sq : ℚ → ℚ) (pos1 pos2 : ℚ × ℚ × ℚ) : ℚ :=
  let dx := pos2.1 - pos1.1
  let dy := pos2.2.1 - pos1.2.1
  let dz := pos2.2.2 - pos1.2.2
  sq (dx ^ 2 + dy ^ 2 + dz ^ 2)

/-- `utils.detect_outliers`: flags values more than `threshold` standard
deviations from the mean; fewer than 3 values yields all-`false`. -/
def detect_outliers (sq : ℚ → ℚ) (values : List ℚ) (threshold : ℚ) : List Bool :=
  if values.length < 3 then values.map fun _ => false
  else
    let mean := values.sum / values.length
    let variance := (values.map fun x => ((x - mean) ^ 2 : ℚ)).sum / values.length
    let std_dev := sq variance
    values.map fun value => |value - mean| > threshold * std_dev

/-! ## lap_validator.py: data model -/

/-- `lap_validator.ValidationResult`. -/
inductive ValidationResult
  | VALID
  | INVALID_INSUFFICIENT_DATA
  | INVALID_DURATION
  | INVALID_DISTANCE
  | INVALID_DATA_GAPS
  | INVALID_OUTLIERS
  | INVALID_INCOMPLETE
  | INVALID_POSITION
  deriving Repr, DecidableEq

/-- The diagnostic strings appended to `ValidationReport.issues`,
modelled as an inductive carrying the interpolated quantities of the
Python f-strings. -/
inductive Issue
  | insufficientPoints (got need : ℕ)
  | lapTooShort (duration min_time : ℚ)
  | lapTooLong (duration max_time : ℚ)
  | tooManyInvalidPositions (percentage : ℚ)
  | largeDataGaps (max_gap : ℚ)
  | excessiveSpeedOutliers (count : ℕ)
  | insufficientDistanceCoverage (percentage : ℚ)
  | incompleteData (percentage : ℚ)
  deriving Repr, DecidableEq

/-- The recommendation strings appended to
`ValidationReport.recommendations`, modelled as an inductive. -/
inductive Recommendation
  | needMinPoints (need : ℕ)
  | checkLapTiming
  | checkPitStops
  | checkPositionQuality
  | checkCollectionFrequency
  | checkDataCorruption
  | checkLapCompleted
  | checkDataCollection
  deriving Repr, DecidableEq

/-- `lap_validator.ValidationReport`. -/
structure ValidationReport where
  result : ValidationResult
  lap_number : Int
  telemetry_points : ℕ
  duration : ℚ
  distance : ℚ
  max_gap : ℚ
  outlier_count : ℕ
  issues : List Issue := []
  recommendations : List Recommendation := []
  deriving Repr, DecidableEq

/-- `ValidationReport.is_valid`. -/
def ValidationReport.is_valid (r : ValidationReport) : Bool :=
  r.result = ValidationResult.VALID

/-- `lap_validator.TelemetryPoint` (already parsed from its dict). -/
structure TelemetryPoint where
  timestamp : ℚ
  session_elapsed : ℚ
  lap_progress : ℚ
  position : ℚ × ℚ × ℚ
  speed : ℚ
  rpm : ℚ
  gear : Int
  throttle : ℚ
  brake : ℚ
  fuel : ℚ
  deriving Repr, DecidableEq

instance : Inhabited TelemetryPoint :=
  ⟨⟨0, 0, 0, (0, 0, 0), 0, 0, 0, 0, 0, 0⟩⟩

/-- `settings_manager.LapValidationSettings` (the fields the validator
reads). -/
structure LapValidationSettings where
  min_telemetry_points : ℕ
  min_lap_time : ℚ
  max_lap_time : ℚ
  min_distance_percentage : ℚ
  max_telemetry_gap : ℚ
  speed_outlier_threshold : ℚ
  deriving Repr, DecidableEq

/-- The pydantic defaults of `LapValidationSettings`. -/
def defaultSettings : LapValidationSettings :=
  { min_telemetry_points := 100
    min_lap_time := 30
    max_lap_time := 300
    min_distance_percentage := 80
    max_telemetry_gap := 2
    speed_outlier_threshold := 400 }

/-! ## lap_validator.py: the seven rules

Each `_validate_*` method mutates the report in place; here each is a
function `ValidationReport → ValidationReport` (or `Except`-valued when
the Python body contains a division that can raise). -/

/-- `LapValidator._validate_data_sufficiency`. -/
def validate_data_sufficiency (S : LapValidationSettings)
    (points : List TelemetryPoint) (r : ValidationReport) : ValidationReport :=
  if points.length < S.min_telemetry_points then
    { r with result := ValidationResult.INVALID_INSUFFICIENT_DATA
             issues := r.issues ++ [Issue.insufficientPoints points.length S.min_telemetry_points]
             recommendations := r.recommendations ++ [Recommendation.needMinPoints S.min_telemetry_points] }
  else r

/-- The duration `points[-1].timestamp - points[0].timestamp`
(meaningful only when the list has at least 2 elements). -/
def lapDurationOf (points : List TelemetryPoint) : ℚ :=
  (points.getLastD default).timestamp - (points.headD default).timestamp

/-- `LapValidator._validate_lap_duration`. -/
def validate_lap_duration (S : LapValidationSettings)
    (points : List TelemetryPoint) (r : ValidationReport) : ValidationReport :=
  if points.length < 2 then r
  else
    let duration := lapDurationOf points
    if duration < S.min_lap_time then
      { r with result := ValidationResult.INVALID_DURATION
               issues := r.issues ++ [Issue.lapTooShort duration S.min_lap_time]
               recommendations := r.recommendations ++ [Recommendation.checkLapTiming] }
    else if duration > S.max_lap_time then
      { r with result := ValidationResult.INVALID_DURATION
               issues := r.issues ++ [Issue.lapTooLong duration S.max_lap_time]
               recommendations := r.recommendations ++ [Recommendation.checkPitStops] }
    else r

/-- The number of points with an invalid position. -/
def invalidPositionCount (points : List TelemetryPoint) : ℕ :=
  (points.filter fun p => ¬ is_valid_position p.position).length

/-- `LapValidator._validate_positions`: the percentage computation
divides by `len(points)` and raises `ZeroDivisionError` on an empty
list. -/
def validate_positions (points : List TelemetryPoint)
    (r : ValidationReport) : Except PyError ValidationReport := do
  let invalid_positions := invalidPositionCount points
  let q ← pyDiv invalid_positions points.length
  let invalid_percentage := q * 100
  if invalid_percentage > 5 then
    return { r with result := ValidationResult.INVALID_POSITION
                    issues := r.issues ++ [Issue.tooManyInvalidPositions invalid_percentage]
                    recommendations := r.recommendations ++ [Recommendation.checkPositionQuality] }
  else
    return r

/-- The consecutive-pair gaps `points[i].timestamp - points[i-1].timestamp`. -/
def consecutiveGaps (points : List TelemetryPoint) : List ℚ :=
  (points.zip points.tail).map fun ab => ab.2.timestamp - ab.1.timestamp

/-- `LapValidator._validate_data_gaps`. -/
def validate_data_gaps (S : LapValidationSettings)
    (points : List TelemetryPoint) (r : ValidationReport) : ValidationReport :=
  if points.length < 2 then r
  else
    let large_gaps := (consecutiveGaps points).filter fun g => g > S.max_telemetry_gap
    match large_gaps with
    | [] => r
    | g :: gs =>
      let max_gap := gs.foldl max g
      { r with result := ValidationResult.INVALID_DATA_GAPS
               issues := r.issues ++ [Issue.largeDataGaps max_gap]
               recommendations := r.recommendations ++ [Recommendation.checkCollectionFrequency] }

/-- The extreme speeds of `_validate_outliers`: speeds flagged by
`detect_outliers` with threshold 2.5 that also exceed the configured
speed-outlier threshold. -/
def extremeSpeeds (S : LapValidationSettings) (sq : ℚ → ℚ)
    (points : List TelemetryPoint) : List ℚ :=
  let speeds := points.map TelemetryPoint.speed
  let speed_outliers := detect_outliers sq speeds (5 / 2)
  ((speeds.zip speed_outliers).filter fun sf =>
    sf.2 && decide (sf.1 > S.speed_outlier_threshold)).map Prod.fst

/-- `LapValidator._validate_outliers` (the Python literal `0.1` is the
nearest binary double to 1/10; for integer counts the comparison
`count > len * 0.1` agrees with the exact `count > len / 10`). -/
def validate_outliers (S : LapValidationSettings) (sq : ℚ → ℚ)
    (points : List TelemetryPoint) (r : ValidationReport) : ValidationReport :=
  if points.length < 10 then r
  else
    let extreme_speeds := extremeSpeeds S sq points
    if extreme_speeds.length = 0 then r
    else
      let r := { r with outlier_count := extreme_speeds.length }
      if (extreme_speeds.length : ℚ) > (points.length : ℚ) * (1 / 10) then
        { r with result := ValidationResult.INVALID_OUTLIERS
                 issues := r.issues ++ [Issue.excessiveSpeedOutliers extreme_speeds.length]
                 recommendations := r.recommendations ++ [Recommendation.checkDataCorruption] }
      else r

/-- `LapValidator._calculate_lap_distance`: sum of distances between
consecutive points whose positions are both valid. -/
def calculate_lap_distance (sq : ℚ → ℚ) (points : List TelemetryPoint) : ℚ :=
  if points.length < 2 then 0
  else
    ((points.zip points.tail).map fun ab =>
      if is_valid_position ab.1.position ∧ is_valid_position ab.2.position then
        calculate_distance sq ab.1.position ab.2.position
      else 0).sum

/-- `LapValidator._estimate_track_length`: 0 below 10 points, otherwise
the integrated lap distance itself. -/
def estimate_track_length (sq : ℚ → ℚ) (points : List TelemetryPoint) : ℚ :=
  if points.length < 10 then 0
  else calculate_lap_distance sq points

/-- `LapValidator._validate_distance_coverage`. -/
def validate_distance_coverage (S : LapValidationSettings) (sq : ℚ → ℚ)
    (points : List TelemetryPoint) (r : ValidationReport) : ValidationReport :=
  if points.length < 2 then r
  else
    let total_distance := calculate_lap_distance sq points
    let estimated_distance := estimate_track_length sq points
    if estimated_distance > 0 then
      let coverage_percentage := total_distance / estimated_distance * 100
      if coverage_percentage < S.min_distance_percentage then
        { r with result := ValidationResult.INVALID_DISTANCE
                 issues := r.issues ++ [Issue.insufficientDistanceCoverage coverage_percentage]
                 recommendations := r.recommendations ++ [Recommendation.checkLapCompleted] }
      else r
    else r

/-- Whether a point counts as "missing critical data" in
`_validate_data_completeness`. -/
def missingData (p : TelemetryPoint) : Bool :=
  p.speed < 0 ∨ p.rpm < 0 ∨
    ¬ is_valid_telemetry_value p.throttle 0 1 ∨
    ¬ is_valid_telemetry_value p.brake 0 1

/-- `LapValidator._validate_data_completeness`: the percentage
computation divides by `len(points)` and raises `ZeroDivisionError` on
an empty list. -/
def validate_data_completeness (points : List TelemetryPoint)
    (r : ValidationReport) : Except PyError ValidationReport := do
  let missing_data_count := (points.filter missingData).length
  let q ← pyDiv missing_data_count points.length
  let missing_percentage := q * 100
  if missing_percentage > 2 then
    return { r with result := ValidationResult.INVALID_INCOMPLETE
                    issues := r.issues ++ [Issue.incompleteData missing_percentage]
                    recommendations := r.recommendations ++ [Recommendation.checkDataCollection] }
  else
    return r

/-- `LapValidator._calculate_lap_duration`. -/
def calculate_lap_duration (points : List TelemetryPoint) : ℚ :=
  if points.length < 2 then 0 else lapDurationOf points

/-- `LapValidator._calculate_max_gap`. -/
def calculate_max_gap (points : List TelemetryPoint) : ℚ :=
  if points.length < 2 then 0
  else (consecutiveGaps points).foldl max 0

/-- `LapValidator.validate_lap`: the full validation pipeline on
already-parsed points.  The checks run unconditionally in sequence;
an unhandled `ZeroDivisionError` from a percentage computation
propagates as `Except.error`. -/
def validate_lap (S : LapValidationSettings) (sq : ℚ → ℚ)
    (lap_number : Int) (points : List TelemetryPoint) :
    Except PyError ValidationReport := do
  let report : ValidationReport :=
    { result := ValidationResult.VALID
      lap_number := lap_number
      telemetry_points := points.length
      duration := 0
      distance := 0
      max_gap := 0
      outlier_count := 0 }
  let report := validate_data_sufficiency S points report
  let report := validate_lap_duration S points report
  let report ← validate_positions points report
  let report := validate_data_gaps S points report
  let report := validate_outliers S sq points report
  let report := validate_distance_coverage S sq points report
  let report ← validate_data_completeness points report
  let report :=
    { report with duration := calculate_lap_duration points
                  distance := calculate_lap_distance sq points
                  max_gap := calculate_max_gap points }
  let report :=
    if report.result = ValidationResult.VALID ∧ report.issues ≠ [] then
      { report with result := ValidationResult.INVALID_INCOMPLETE }
    else report
  return report

/-! ### Failure conditions of the seven rules

Boolean renderings of each rule's failure condition, used to
characterise the pipeline.  The two percentage conditions use total
`ℚ` division; they agree with the rules whenever the point list is
nonempty (the only case in which the rules run to completion). -/

/-- Failure condition of rule 1 (`_validate_data_sufficiency`). -/
def sufficiencyFails (S : LapValidationSettings) (points : List TelemetryPoint) : Bool :=
  points.length < S.min_telemetry_points

/-- Failure condition of rule 2 (`_validate_lap_duration`). -/
def durationFails (S : LapValidationSettings) (points : List TelemetryPoint) : Bool :=
  2 ≤ points.length ∧
    (lapDurationOf points < S.min_lap_time ∨ lapDurationOf points > S.max_lap_time)

/-- The invalid-position percentage of rule 3 (total `ℚ` division). -/
def invalidPositionPct (points : List TelemetryPoint) : ℚ :=
  (invalidPositionCount points : ℚ) / points.length * 100

/-- Failure condition of rule 3 (`_validate_positions`). -/
def positionsFails (points : List TelemetryPoint) : Bool :=
  invalidPositionPct points > 5

/-- Failure condition of rule 4 (`_validate_data_gaps`). -/
def gapsFails (S : LapValidationSettings) (points : List TelemetryPoint) : Bool :=
  2 ≤ points.length ∧
    (consecutiveGaps points).filter (fun g => g > S.max_telemetry_gap) ≠ []

/-- Failure condition of rule 5 (`_validate_outliers`). -/
def outliersFails (S : LapValidationSettings) (sq : ℚ → ℚ)
    (points : List TelemetryPoint) : Bool :=
  10 ≤ points.length ∧ extremeSpeeds S sq points ≠ [] ∧
    ((extremeSpeeds S sq points).length : ℚ) > (points.length : ℚ) * (1 / 10)

/-- Failure condition of rule 6 (`_validate_distance_coverage`). -/
def distanceFails (S : LapValidationSettings) (sq : ℚ → ℚ)
    (points : List TelemetryPoint) : Bool :=
  2 ≤ points.length ∧ estimate_track_length sq points > 0 ∧
    calculate_lap_distance sq points / estimate_track_length sq points * 100
      < S.min_distance_percentage

/-- The missing-data percentage of rule 7 (total `ℚ` division). -/
def missingPct (points : List TelemetryPoint) : ℚ :=
  ((points.filter missingData).length : ℚ) / points.length * 100

/-- Failure condition of rule 7 (`_validate_data_completeness`). -/
def completenessFails (points : List TelemetryPoint) : Bool :=
  missingPct points > 2

/-- The result codes of the failing rules, in evaluation order. -/
def failingCodes (S : LapValidationSettings) (sq : ℚ → ℚ)
    (points : List TelemetryPoint) : List ValidationResult :=
  (if sufficiencyFails S points then [ValidationResult.INVALID_INSUFFICIENT_DATA] else []) ++
  (if durationFails S points then [ValidationResult.INVALID_DURATION] else []) ++
  (if positionsFails points then [ValidationResult.INVALID_POSITION] else []) ++
  (if gapsFails S points then [ValidationResult.INVALID_DATA_GAPS] else []) ++
  (if outliersFails S sq points then [ValidationResult.INVALID_OUTLIERS] else []) ++
  (if distanceFails S sq points then [ValidationResult.INVALID_DISTANCE] else []) ++
  (if completenessFails points then [ValidationResult.INVALID_INCOMPLETE] else [])

/-- The issues of the failing rules, in evaluation order. -/
def failingIssues (S : LapValidationSettings) (sq : ℚ → ℚ)
    (points : List TelemetryPoint) : List Issue :=
  (if sufficiencyFails S points then
    [Issue.insufficientPoints points.length S.min_telemetry_points] else []) ++
  (if durationFails S points then
    (if lapDurationOf points < S.min_lap_time then
      [Issue.lapTooShort (lapDurationOf points) S.min_lap_time]
     else [Issue.lapTooLong (lapDurationOf points) S.max_lap_time]) else []) ++
  (if positionsFails points then
    [Issue.tooManyInvalidPositions (invalidPositionPct points)] else []) ++
  (if gapsFails S points then
    [Issue.largeDataGaps
      (((consecutiveGaps points).filter fun g => g > S.max_telemetry_gap).foldl max
        (((consecutiveGaps points).filter fun g => g > S.max_telemetry_gap).headD 0))] else []) ++
  (if outliersFails S sq points then
    [Issue.excessiveSpeedOutliers (extremeSpeeds S sq points).length] else []) ++
  (if distanceFails S sq points then
    [Issue.insufficientDistanceCoverage
      (calculate_lap_distance sq points / estimate_track_length sq points * 100)] else []) ++
  (if completenessFails points then
    [Issue.incompleteData (missingPct points)] else [])

/-- The issues list of an `Except`-valued validation outcome (empty on
an exception). -/
def reportIssues (e : Except PyError ValidationReport) : List Issue :=
  match e with
  | Except.ok r => r.issues
  | Except.error _ => []

/-! ## telemetry_collector.py -/

/-- `telemetry_collector.LapState`. -/
inductive LapState
  | WAITING
  | IN_PROGRESS
  | COMPLETED
  | VALIDATING
  | UPLOADING
  | FAILED
  deriving Repr, DecidableEq

/-- The `.value` string of a `ValidationResult` enum member. -/
def ValidationResult.value : ValidationResult → String
  | ValidationResult.VALID => "valid"
  | ValidationResult.INVALID_INSUFFICIENT_DATA => "insufficient_data"
  | ValidationResult.INVALID_DURATION => "invalid_duration"
  | ValidationResult.INVALID_DISTANCE => "invalid_distance"
  | ValidationResult.INVALID_DATA_GAPS => "data_gaps"
  | ValidationResult.INVALID_OUTLIERS => "outliers"
  | ValidationResult.INVALID_INCOMPLETE => "incomplete"
  | ValidationResult.INVALID_POSITION => "invalid_position"

/-- `telemetry_collector.LapData` (telemetry points in parsed form). -/
structure LapData where
  lap_number : Int
  start_time : ℚ
  end_time : Option ℚ := none
  telemetry_points : List TelemetryPoint := []
  state : LapState := LapState.WAITING
  lap_time : Option ℚ := none
  valid : Bool := false
  uploaded : Bool := false
  error : Option String := none
  deriving Repr, DecidableEq

/-- `TelemetryCollector._process_lap`: validate the lap, then set its
state to `UPLOADING` and its valid flag on a Valid report, and to
`FAILED` otherwise; an exception escaping `validate_lap` also yields
`FAILED`. -/
def process_lap (S : LapValidationSettings) (sq : ℚ → ℚ) (lap : LapData) : LapData :=
  let lap := { lap with state := LapState.VALIDATING }
  match validate_lap S sq lap.lap_number lap.telemetry_points with
  | Except.ok validation_report =>
    if validation_report.is_valid then
      { lap with valid := true, state := LapState.UPLOADING }
    else
      { lap with valid := false, state := LapState.FAILED
                 error := some ("Validation failed: " ++ validation_report.result.value) }
  | Except.error _ =>
    { lap with state := LapState.FAILED
               error := some "Processing error: ZeroDivisionError" }

/-- The selection made by `TelemetryCollector._upload_loop`: the laps of
the pending list whose state is `UPLOADING` and whose valid flag is
set. -/
def laps_to_upload (pending_laps : List LapData) : List LapData :=
  pending_laps.filter fun lap =>
    decide (lap.state = LapState.UPLOADING) && lap.valid

/-! ## snapshot_collector.py -/

/-- `snapshot_collector.ScoringState`, with the fresh defaults installed
at each lap rotation. -/
structure ScoringState where
  last_sector_index : Int := -1
  last_lap_time : ℚ := 0
  last_position : Int := 0
  last_snapshot_time : ℚ := 0
  snapshot_count : ℕ := 0
  deriving Repr, DecidableEq

/-- The fresh `ScoringState()` installed by `_handle_lap_change`. -/
def freshScoringState : ScoringState := {}

/-- One observation of the rF2 scoring buffers inside
`_collect_scoring_snapshot`: the sector index, last lap time,
classification place and elapsed time read on a poll. -/
structure ScoringObs where
  sector_index : Int
  last_laptime : ℚ
  place : Int
  elapsed : ℚ
  deriving Repr, DecidableEq

/-- `snapshot_collector.ScoringSnapshot` (the fields of `data` the
claims inspect, alongside the trigger tag). -/
structure ScoringSnapshot where
  lap_id : String
  snapshot_time : ℚ
  update_trigger : String
  sector_index : Int
  last_laptime : ℚ
  place : Int
  deriving Repr, DecidableEq

/-- The if/elif trigger chain of
`SnapshotTelemetryCollector._collect_scoring_snapshot` (factored out of
the method body): the first matching condition wins, `none` when no
condition matches. -/
def determineTrigger (st : ScoringState) (o : ScoringObs) : Option String :=
  if o.sector_index ≠ st.last_sector_index then some "sector_complete"
  else if o.last_laptime ≠ st.last_lap_time ∧ o.last_laptime > 0 then some "lap_complete"
  else if o.place ≠ st.last_position then some "position_change"
  else if o.elapsed - st.last_snapshot_time ≥ 1 then some "periodic"
  else none

/-- `SnapshotTelemetryCollector._collect_scoring_snapshot`: determine
the update trigger, return `none` when no condition matches, otherwise
update the `ScoringState` from the observed fields and emit the
snapshot. -/
def collect_scoring_snapshot (lap_id : String) (st : ScoringState)
    (o : ScoringObs) : Option (ScoringSnapshot × ScoringState) :=
  match determineTrigger st o with
  | none => none
  | some trig =>
    let st' : ScoringState :=
      { last_sector_index := o.sector_index
        last_lap_time := o.last_laptime
        last_position := o.place
        last_snapshot_time := o.elapsed
        snapshot_count := st.snapshot_count + 1 }
    some (⟨lap_id, o.elapsed, trig, o.sector_index, o.last_laptime, o.place⟩, st')

/-- Poll until the first emitted snapshot.  A poll that emits nothing
leaves the `ScoringState` untouched (the code returns `None` before any
state update), so the state is threaded unchanged. -/
def runFirstSnapshot (lap_id : String) (st : ScoringState) :
    List ScoringObs → Option ScoringSnapshot
  | [] => none
  | o :: rest =>
    match collect_scoring_snapshot lap_id st o with
    | some (snap, _) => some snap
    | none => runFirstSnapshot lap_id st rest

/-! ## api_client.py -/

/-- `api_client.APIResponse` (the response-body dict abstracted to the
raw body string). -/
structure APIResponse where
  success : Bool
  data : Option String := none
  error : Option String := none
  status_code : Option ℕ := none
  deriving Repr, DecidableEq

/-- What one HTTP attempt can come back with: a response with a status
code and body, or a transport exception. -/
inductive AttemptOutcome
  | response (status : ℕ) (body : String)
  | exception (message : String)
  deriving Repr, DecidableEq

/-- The error message extracted from a non-2xx response (modelling the
non-JSON-body case of the Python extraction: the first 200 characters
of the text, or `HTTP {status}` when the body is empty). -/
def errorMessageOf (status : ℕ) (body : String) : String :=
  if body = "" then "HTTP " ++ toString status else body.take 200

/-- The retry loop of `HerbieAPIClient._make_request`, with the
outcome of attempt `i` given by `outcomes i`: 2xx returns success,
4xx other than 429 returns failure immediately, anything else raises
and is retried while attempts remain.  Returns the `APIResponse`
together with the number of attempts actually issued. -/
def request_loop (outcomes : ℕ → AttemptOutcome) (retries : ℕ) :
    ℕ → ℕ → Option String → APIResponse × ℕ
  | 0, made, lastError =>
    ({ success := false
       error := some ("Request failed after " ++ toString (retries + 1) ++
         " attempts: " ++ lastError.getD "None") }, made)
  | remaining + 1, made, _ =>
    match outcomes made with
    | AttemptOutcome.response status body =>
      if 200 ≤ status ∧ status < 300 then
        ({ success := true, data := some body, status_code := some status }, made + 1)
      else if 400 ≤ status ∧ status < 500 ∧ status ≠ 429 then
        ({ success := false, error := some (errorMessageOf status body)
           status_code := some status }, made + 1)
      else
        request_loop outcomes retries remaining (made + 1)
          (some ("HTTP " ++ toString status ++ ": " ++ errorMessageOf status body))
    | AttemptOutcome.exception msg =>
      request_loop outcomes retries remaining (made + 1) (some msg)

/-- `HerbieAPIClient._make_request` for a given retry budget:
`retries + 1` attempts are available. -/
def make_request (outcomes : ℕ → AttemptOutcome) (retries : ℕ) : APIResponse × ℕ :=
  request_loop outcomes retries (retries + 1) 0 none

/-- A status the retry loop retries on, per the spec sentence under
test: HTTP 429 or a 5xx server error. -/
def retriableStatus (status : ℕ) : Prop :=
  status = 429 ∨ (500 ≤ status ∧ status ≤ 599)

instance (status : ℕ) : Decidable (retriableStatus status) := by
  unfold retriableStatus; infer_instance

/-- An attempt outcome the loop retries on: a retriable status or a
transport exception. -/
def retriableOutcome : AttemptOutcome → Prop
  | AttemptOutcome.response status _ => retriableStatus status
  | AttemptOutcome.exception _ => True

/-! ## utils.py: RateLimiter and ExponentialBackoff -/

/-- `utils.RateLimiter` state: the retained call timestamps. -/
structure RateLimiter where
  max_calls : ℕ
  time_window : ℚ
  calls : List ℚ := []
  deriving Repr, DecidableEq

/-- `RateLimiter.can_proceed` at wall-clock time `now`: prune
timestamps that fell out of the window, record the call and allow it
when under the limit, otherwise deny. -/
def can_proceed (rl : RateLimiter) (now : ℚ) : Bool × RateLimiter :=
  let calls := rl.calls.filter fun call_time => now - call_time < rl.time_window
  if calls.length < rl.max_calls then
    (true, { rl with calls := calls ++ [now] })
  else
    (false, { rl with calls := calls })

/-- `RateLimiter.time_until_next` at wall-clock time `now`. -/
def time_until_next (rl : RateLimiter) (now : ℚ) : ℚ :=
  if rl.calls.length < rl.max_calls then 0
  else
    let oldest_call := rl.calls.tail.foldl min (rl.calls.headD 0)
    max 0 (rl.time_window - (now - oldest_call))

/-- The rate-limiting prologue of one attempt in
`HerbieAPIClient._make_request`, for a request reaching it at time
`start`: if `can_proceed` allows, the HTTP attempt is issued at
`start`; if it denies, the caller sleeps `time_until_next` and then
issues the HTTP attempt anyway, without re-checking and without
recording it.  Returns the limiter state and the time at which the
attempt goes out. -/
def rate_limited_attempt (rl : RateLimiter) (start : ℚ) : RateLimiter × ℚ :=
  match can_proceed rl start with
  | (true, rl') => (rl', start)
  | (false, rl') =>
    let wait_time := time_until_next rl' start
    if wait_time > 0 then (rl', start + wait_time) else (rl', start)

/-- Run a sequence of attempt prologues (one per request, in event-loop
order) against a shared rate limiter, collecting the times at which the
HTTP attempts are issued. -/
def run_attempts (rl : RateLimiter) : List ℚ → List ℚ
  | [] => []
  | start :: rest =>
    let (rl', attempt_time) := rate_limited_attempt rl start
    attempt_time :: run_attempts rl' rest

/-- The number of issued attempts falling in the sliding window
`[a, a + w)`. -/
def attemptsInWindow (attempts : List ℚ) (a w : ℚ) : ℕ :=
  (attempts.filter fun t => a ≤ t ∧ t < a + w).length

/-- `utils.ExponentialBackoff` state. -/
structure ExponentialBackoff where
  initial_delay : ℚ
  max_delay : ℚ
  multiplier : ℚ
  jitter : Bool
  current_delay : ℚ
  attempt : ℕ
  deriving Repr, DecidableEq

/-- `ExponentialBackoff.__init__`. -/
def mkExponentialBackoff (initial_delay max_delay multiplier : ℚ)
    (jitter : Bool) : ExponentialBackoff :=
  { initial_delay := initial_delay
    max_delay := max_delay
    multiplier := multiplier
    jitter := jitter
    current_delay := initial_delay
    attempt := 0 }

/-- `ExponentialBackoff.get_delay`, with `r` the value drawn from
`random.random()` (a real draw satisfies `0 ≤ r < 1`): cap the current
delay at `max_delay`, scale by the jitter factor `0.5 + r * 0.5` when
jitter is enabled, then advance the state. -/
def get_delay (r : ℚ) (b : ExponentialBackoff) : ℚ × ExponentialBackoff :=
  let delay := min b.current_delay b.max_delay
  let delay := if b.jitter then delay * (1 / 2 + r * (1 / 2)) else delay
  (delay, { b with current_delay := b.current_delay * b.multiplier
                   attempt := b.attempt + 1 })

/-- Total of the delays returned by `k` consecutive `get_delay` calls,
the `i`-th call drawing jitter value `rs i`. -/
def run_backoff (rs : ℕ → ℚ) (b : ExponentialBackoff) : ℕ → ℚ
  | 0 => 0
  | k + 1 =>
    let (d, b') := get_delay (rs 0) b
    d + run_backoff (fun i => rs (i + 1)) b' k

/-! ## Concrete inputs used by counterexamples and witnesses -/

/-- A concrete stand-in for the square-root parameter, used when
evaluating on inputs whose behaviour does not depend on it. -/
def sqZero : ℚ → ℚ := fun _ => 0

/-- A telemetry point at the origin (an invalid position) with all
fields zero. -/
def cexPoint0 : TelemetryPoint := ⟨0, 0, 0, (0, 0, 0), 0, 0, 0, 0, 0, 0⟩

/-- The same point one second later. -/
def cexPoint1 : TelemetryPoint := { cexPoint0 with timestamp := 1 }

/-- A two-point lap: too few points, too short, and both positions
invalid. -/
def cexPoints : List TelemetryPoint := [cexPoint0, cexPoint1]

/-- A lap as it sits in the pending list ready for upload. -/
def lapU : LapData :=
  { lap_number := 1, start_time := 0, state := LapState.UPLOADING, valid := true }

/-- An observation whose sector index (0) differs from the fresh
baseline (-1). -/
def obsSector0 : ScoringObs := ⟨0, 0, 0, 5⟩

/-- An observation agreeing with every fresh baseline, past the
periodic deadline. -/
def obsFreshBaseline : ScoringObs := ⟨-1, 0, 0, 5⟩

/-- The snapshot emitted for `obsFreshBaseline` from the fresh state. -/
def snapFreshBaseline : ScoringSnapshot := ⟨"lap_1", 5, "periodic", -1, 0, 0⟩

/-- Attempt outcomes: a 503 on the first attempt, then a 404. -/
def cexOutcomes : ℕ → AttemptOutcome := fun i =>
  if i = 0 then AttemptOutcome.response 503 "server error"
  else AttemptOutcome.response 404 "not found"

/-- A rate limiter configured like the API client's: `max_calls` is the
smallest value `batch_size` admits (10), `time_window` 60 s. -/
def cexLimiter : RateLimiter := { max_calls := 10, time_window := 60 }

/-- Request start times: ten requests at t = 0 (all admitted), one at
t = 1 (denied, sleeps until t = 60, then fires unrecorded), ten at
t = 61 (all admitted after the t = 0 records age out). -/
def rateStarts : List ℚ :=
  [0, 0, 0, 0, 0, 0, 0, 0, 0, 0, 1] ++ List.replicate 10 61

/-- The all-zero jitter draw sequence (0 is a legal value of
`random.random()`). -/
def rsZero : ℕ → ℚ := fun _ => 0

/-- A fresh report as `validate_lap` initialises it for a two-point
lap. -/
def cexReport : ValidationReport :=
  { result := ValidationResult.VALID, lap_number := 1, telemetry_points := 2
    duration := 0, distance := 0, max_gap := 0, outlier_count := 0 }

/-! ## Validator characterisation lemmas -/

theorem sufficiency_result (S : LapValidationSettings) (points : List TelemetryPoint)
    (r : ValidationReport) :
    (validate_data_sufficiency S points r).result =
      if sufficiencyFails S points then ValidationResult.INVALID_INSUFFICIENT_DATA
      else r.result := by
  by_cases h : points.length < S.min_telemetry_points <;>
    simp [validate_data_sufficiency, sufficiencyFails, h]

theorem sufficiency_issues (S : LapValidationSettings) (points : List TelemetryPoint)
    (r : ValidationReport) :
    (validate_data_sufficiency S points r).issues =
      r.issues ++
        (if sufficiencyFails S points then
          [Issue.insufficientPoints points.length S.min_telemetry_points] else []) := by
  by_cases h : points.length < S.min_telemetry_points <;>
    simp [validate_data_sufficiency, sufficiencyFails, h]

theorem duration_result (S : LapValidationSettings) (points : List TelemetryPoint)
    (r : ValidationReport) :
    (validate_lap_duration S points r).result =
      if durationFails S points then ValidationResult.INVALID_DURATION
      else r.result := by
  by_cases h0 : points.length < 2
  · have h0' : ¬ 2 ≤ points.length := by omega
    simp [validate_lap_duration, durationFails, h0, h0']
  · have h0' : 2 ≤ points.length := by omega
    by_cases h1 : lapDurationOf points < S.min_lap_time
    · simp [validate_lap_duration, durationFails, h0, h0', h1]
    · by_cases h2 : lapDurationOf points > S.max_lap_time <;>
        simp [validate_lap_duration, durationFails, h0, h0', h1, h2]

theorem duration_issues (S : LapValidationSettings) (points : List TelemetryPoint)
    (r : ValidationReport) :
    (validate_lap_duration S points r).issues =
      r.issues ++
        (if durationFails S points then
          (if lapDurationOf points < S.min_lap_time then
            [Issue.lapTooShort (lapDurationOf points) S.min_lap_time]
           else [Issue.lapTooLong (lapDurationOf points) S.max_lap_time]) else []) := by
  by_cases h0 : points.length < 2
  · have h0' : ¬ 2 ≤ points.length := by omega
    simp [validate_lap_duration, durationFails, h0, h0']
  · have h0' : 2 ≤ points.length := by omega
    by_cases h1 : lapDurationOf points < S.min_lap_time
    · simp [validate_lap_duration, durationFails, h0, h0', h1]
    · by_cases h2 : lapDurationOf points > S.max_lap_time <;>
        simp [validate_lap_duration, durationFails, h0, h0', h1, h2]

/-- The total form of rule 3: what `_validate_positions` computes on a
nonempty point list (`positions_ok` below proves the correspondence). -/
def posTotal (points : List TelemetryPoint) (r : ValidationReport) : ValidationReport :=
  if positionsFails points then
    { r with result := ValidationResult.INVALID_POSITION
             issues := r.issues ++
               [Issue.tooManyInvalidPositions (invalidPositionPct points)]
             recommendations := r.recommendations ++
               [Recommendation.checkPositionQuality] }
  else r

/-- The total form of rule 7: what `_validate_data_completeness`
computes on a nonempty point list (`completeness_ok` below proves the
correspondence). -/
def compTotal (points : List TelemetryPoint) (r : ValidationReport) : ValidationReport :=
  if completenessFails points then
    { r with result := ValidationResult.INVALID_INCOMPLETE
             issues := r.issues ++ [Issue.incompleteData (missingPct points)]
             recommendations := r.recommendations ++
               [Recommendation.checkDataCollection] }
  else r

theorem positions_ok (points : List TelemetryPoint) (r : ValidationReport)
    (h : points.length ≠ 0) :
    validate_positions points r = Except.ok (posTotal points r) := by
  have hq : ((points.length : ℚ)) ≠ 0 := Nat.cast_ne_zero.mpr h
  by_cases h1 : (invalidPositionCount points : ℚ) / points.length * 100 > 5 <;>
    simp [validate_positions, posTotal, positionsFails, invalidPositionPct, pyDiv, hq, h1,
      bind, Except.bind, pure, Except.pure]


theorem gaps_result (S : LapValidationSettings) (points : List TelemetryPoint)
    (r : ValidationReport) :
    (validate_data_gaps S points r).result =
      if gapsFails S points then ValidationResult.INVALID_DATA_GAPS
      else r.result := by
  by_cases h0 : points.length < 2
  · have h0' : ¬ 2 ≤ points.length := by omega
    simp [validate_data_gaps, gapsFails, h0, h0']
  · have h0' : 2 ≤ points.length := by omega
    cases hlg : (consecutiveGaps points).filter fun g => g > S.max_telemetry_gap <;>
      simp [validate_data_gaps, gapsFails, h0, h0', hlg]

theorem gaps_issues (S : LapValidationSettings) (points : List TelemetryPoint)
    (r : ValidationReport) :
    (validate_data_gaps S points r).issues =
      r.issues ++
        (if gapsFails S points then
          [Issue.largeDataGaps
            (((consecutiveGaps points).filter fun g => g > S.max_telemetry_gap).foldl max
              (((consecutiveGaps points).filter fun g => g > S.max_telemetry_gap).headD 0))]
         else []) := by
  by_cases h0 : points.length < 2
  · have h0' : ¬ 2 ≤ points.length := by omega
    simp [validate_data_gaps, gapsFails, h0, h0']
  · have h0' : 2 ≤ points.length := by omega
    cases hlg : (consecutiveGaps points).filter fun g => g > S.max_telemetry_gap with
    | nil => simp [validate_data_gaps, gapsFails, h0, h0', hlg]
    | cons g gs =>
      simp [validate_data_gaps, gapsFails, h0, h0', hlg, List.foldl, max_self]

theorem outliers_result (S : LapValidationSettings) (sq : ℚ → ℚ)
    (points : List TelemetryPoint) (r : ValidationReport) :
    (validate_outliers S sq points r).result =
      if outliersFails S sq points then ValidationResult.INVALID_OUTLIERS
      else r.result := by
  by_cases h0 : points.length < 10
  · have h0' : ¬ 10 ≤ points.length := by omega
    simp [validate_outliers, outliersFails, h0, h0']
  · have h0' : 10 ≤ points.length := by omega
    by_cases h1 : (extremeSpeeds S sq points).length = 0
    · have h1' : extremeSpeeds S sq points = [] := List.length_eq_zero.mp h1
      simp [validate_outliers, outliersFails, h0, h0', h1, h1']
    · have h1' : extremeSpeeds S sq points ≠ [] := by
        intro hc; exact h1 (by simp [hc])
      by_cases h2 : (points.length : ℚ) * (10 : ℚ)⁻¹ < ((extremeSpeeds S sq points).length : ℚ) <;>
        simp [validate_outliers, outliersFails, h0, h0', h1, h1', h2]

theorem outliers_issues (S : LapValidationSettings) (sq : ℚ → ℚ)
    (points : List TelemetryPoint) (r : ValidationReport) :
    (validate_outliers S sq points r).issues =
      r.issues ++
        (if outliersFails S sq points then
          [Issue.excessiveSpeedOutliers (extremeSpeeds S sq points).length] else []) := by
  by_cases h0 : points.length < 10
  · have h0' : ¬ 10 ≤ points.length := by omega
    simp [validate_outliers, outliersFails, h0, h0']
  · have h0' : 10 ≤ points.length := by omega
    by_cases h1 : (extremeSpeeds S sq points).length = 0
    · have h1' : extremeSpeeds S sq points = [] := List.length_eq_zero.mp h1
      simp [validate_outliers, outliersFails, h0, h0', h1, h1']
    · have h1' : extremeSpeeds S sq points ≠ [] := by
        intro hc; exact h1 (by simp [hc])
      by_cases h2 : (points.length : ℚ) * (10 : ℚ)⁻¹ < ((extremeSpeeds S sq points).length : ℚ) <;>
        simp [validate_outliers, outliersFails, h0, h0', h1, h1', h2]

theorem distance_result (S : LapValidationSettings) (sq : ℚ → ℚ)
    (points : List TelemetryPoint) (r : ValidationReport) :
    (validate_distance_coverage S sq points r).result =
      if distanceFails S sq points then ValidationResult.INVALID_DISTANCE
      else r.result := by
  by_cases h0 : points.length < 2
  · have h0' : ¬ 2 ≤ points.length := by omega
    simp [validate_distance_coverage, distanceFails, h0, h0']
  · have h0' : 2 ≤ points.length := by omega
    by_cases h1 : estimate_track_length sq points > 0
    · by_cases h2 : calculate_lap_distance sq points / estimate_track_length sq points * 100
        < S.min_distance_percentage <;>
        simp [validate_distance_coverage, distanceFails, h0, h0', h1, h2]
    · simp [validate_distance_coverage, distanceFails, h0, h0', h1]

theorem distance_issues (S : LapValidationSettings) (sq : ℚ → ℚ)
    (points : List TelemetryPoint) (r : ValidationReport) :
    (validate_distance_coverage S sq points r).issues =
      r.issues ++
        (if distanceFails S sq points then
          [Issue.insufficientDistanceCoverage
            (calculate_lap_distance sq points / estimate_track_length sq points * 100)]
         else []) := by
  by_cases h0 : points.length < 2
  · have h0' : ¬ 2 ≤ points.length := by omega
    simp [validate_distance_coverage, distanceFails, h0, h0']
  · have h0' : 2 ≤ points.length := by omega
    by_cases h1 : estimate_track_length sq points > 0
    · by_cases h2 : calculate_lap_distance sq points / estimate_track_length sq points * 100
        < S.min_distance_percentage <;>
        simp [validate_distance_coverage, distanceFails, h0, h0', h1, h2]
    · simp [validate_distance_coverage, distanceFails, h0, h0', h1]

theorem completeness_ok (points : List TelemetryPoint) (r : ValidationReport)
    (h : points.length ≠ 0) :
    validate_data_completeness points r = Except.ok (compTotal points r) := by
  have hq : ((points.length : ℚ)) ≠ 0 := Nat.cast_ne_zero.mpr h
  by_cases h1 : ((points.filter missingData).length : ℚ) / points.length * 100 > 2 <;>
    simp [validate_data_completeness, compTotal, completenessFails, missingPct, pyDiv, hq, h1,
      bind, Except.bind, pure, Except.pure]

theorem posTotal_result (points : List TelemetryPoint) (r : ValidationReport) :
    (posTotal points r).result =
      if positionsFails points then ValidationResult.INVALID_POSITION else r.result := by
  unfold posTotal; by_cases h : positionsFails points <;> simp [h]

theorem posTotal_issues (points : List TelemetryPoint) (r : ValidationReport) :
    (posTotal points r).issues =
      r.issues ++
        (if positionsFails points then
          [Issue.tooManyInvalidPositions (invalidPositionPct points)] else []) := by
  unfold posTotal; by_cases h : positionsFails points <;> simp [h]

theorem compTotal_result (points : List TelemetryPoint) (r : ValidationReport) :
    (compTotal points r).result =
      if completenessFails points then ValidationResult.INVALID_INCOMPLETE else r.result := by
  unfold compTotal; by_cases h : completenessFails points <;> simp [h]

theorem compTotal_issues (points : List TelemetryPoint) (r : ValidationReport) :
    (compTotal points r).issues =
      r.issues ++
        (if completenessFails points then
          [Issue.incompleteData (missingPct points)] else []) := by
  unfold compTotal; by_cases h : completenessFails points <;> simp [h]

/-- The total counterpart of `validate_lap`: the same pipeline with the
two division-carrying rules replaced by their total forms.  Equal to
`validate_lap` (under `Except.ok`) whenever the point list is nonempty
(`validate_lap_eq_total`). -/
def validate_lap_total (S : LapValidationSettings) (sq : ℚ → ℚ)
    (lap_number : Int) (points : List TelemetryPoint) : ValidationReport :=
  let report : ValidationReport :=
    { result := ValidationResult.VALID
      lap_number := lap_number
      telemetry_points := points.length
      duration := 0
      distance := 0
      max_gap := 0
      outlier_count := 0 }
  let report := validate_data_sufficiency S points report
  let report := validate_lap_duration S points report
  let report := posTotal points report
  let report := validate_data_gaps S points report
  let report := validate_outliers S sq points report
  let report := validate_distance_coverage S sq points report
  let report := compTotal points report
  let report :=
    { report with duration := calculate_lap_duration points
                  distance := calculate_lap_distance sq points
                  max_gap := calculate_max_gap points }
  if report.result = ValidationResult.VALID ∧ report.issues ≠ [] then
    { report with result := ValidationResult.INVALID_INCOMPLETE }
  else report

theorem validate_lap_eq_total (S : LapValidationSettings) (sq : ℚ → ℚ)
    (n : Int) (points : List TelemetryPoint) (h : points.length ≠ 0) :
    validate_lap S sq n points = Except.ok (validate_lap_total S sq n points) := by
  simp only [validate_lap, validate_lap_total, positions_ok _ _ h, completeness_ok _ _ h,
    bind, Except.bind, pure, Except.pure]

theorem getLastD_if_concat {α : Type} (c : Bool) (k : α) (l : List α) (d : α) :
    (l ++ (if c then [k] else [])).getLastD d = if c then k else l.getLastD d := by
  cases c <;> simp

theorem chain_result (S : LapValidationSettings) (sq : ℚ → ℚ)
    (points : List TelemetryPoint) (r : ValidationReport) :
    (compTotal points (validate_distance_coverage S sq points (validate_outliers S sq points
      (validate_data_gaps S points (posTotal points (validate_lap_duration S points
        (validate_data_sufficiency S points r))))))).result =
      (if completenessFails points then ValidationResult.INVALID_INCOMPLETE
       else if distanceFails S sq points then ValidationResult.INVALID_DISTANCE
       else if outliersFails S sq points then ValidationResult.INVALID_OUTLIERS
       else if gapsFails S points then ValidationResult.INVALID_DATA_GAPS
       else if positionsFails points then ValidationResult.INVALID_POSITION
       else if durationFails S points then ValidationResult.INVALID_DURATION
       else if sufficiencyFails S points then ValidationResult.INVALID_INSUFFICIENT_DATA
       else r.result) := by
  rw [compTotal_result, distance_result, outliers_result, gaps_result, posTotal_result,
    duration_result, sufficiency_result]

theorem chain_issues (S : LapValidationSettings) (sq : ℚ → ℚ)
    (points : List TelemetryPoint) (r : ValidationReport) :
    (compTotal points (validate_distance_coverage S sq points (validate_outliers S sq points
      (validate_data_gaps S points (posTotal points (validate_lap_duration S points
        (validate_data_sufficiency S points r))))))).issues =
      r.issues ++ failingIssues S sq points := by
  rw [compTotal_issues, distance_issues, outliers_issues, gaps_issues, posTotal_issues,
    duration_issues, sufficiency_issues]
  simp [failingIssues, List.append_assoc]

theorem codes_getLastD (S : LapValidationSettings) (sq : ℚ → ℚ)
    (points : List TelemetryPoint) :
    (failingCodes S sq points).getLastD ValidationResult.VALID =
      (if completenessFails points then ValidationResult.INVALID_INCOMPLETE
       else if distanceFails S sq points then ValidationResult.INVALID_DISTANCE
       else if outliersFails S sq points then ValidationResult.INVALID_OUTLIERS
       else if gapsFails S points then ValidationResult.INVALID_DATA_GAPS
       else if positionsFails points then ValidationResult.INVALID_POSITION
       else if durationFails S points then ValidationResult.INVALID_DURATION
       else if sufficiencyFails S points then ValidationResult.INVALID_INSUFFICIENT_DATA
       else ValidationResult.VALID) := by
  simp only [failingCodes, ← List.append_assoc]
  rw [getLastD_if_concat, getLastD_if_concat, getLastD_if_concat, getLastD_if_concat,
    getLastD_if_concat, getLastD_if_concat]
  by_cases h1 : sufficiencyFails S points <;> simp [h1]

theorem mem_if_singleton {α : Type} (c : Bool) (k k₀ : α)
    (h : k ∈ (if c then [k₀] else [])) : k = k₀ := by
  cases c <;> simp_all

theorem if_singleton_eq_nil {α : Type} (c : Bool) (k : α)
    (h : (if c then [k] else []) = ([] : List α)) : c = false := by
  cases c <;> simp_all

theorem failingCodes_ne_valid (S : LapValidationSettings) (sq : ℚ → ℚ)
    (points : List TelemetryPoint) :
    ∀ k ∈ failingCodes S sq points, k ≠ ValidationResult.VALID := by
  intro k hk
  unfold failingCodes at hk
  simp only [List.mem_append] at hk
  rcases hk with ((((((h | h) | h) | h) | h) | h) | h) <;>
    (rw [mem_if_singleton _ _ _ h]; decide)

theorem getLastD_valid_imp_nil (S : LapValidationSettings) (sq : ℚ → ℚ)
    (points : List TelemetryPoint)
    (hg : (failingCodes S sq points).getLastD ValidationResult.VALID =
      ValidationResult.VALID) :
    failingCodes S sq points = [] := by
  rcases List.eq_nil_or_concat (failingCodes S sq points) with hnil | ⟨l, a, hla⟩
  · exact hnil
  · exfalso
    have ha : a ∈ failingCodes S sq points := by rw [hla]; simp
    have hne := failingCodes_ne_valid S sq points a ha
    rw [hla, List.concat_eq_append, List.getLastD_concat] at hg
    exact hne hg

theorem issues_nil_of_codes_nil (S : LapValidationSettings) (sq : ℚ → ℚ)
    (points : List TelemetryPoint) (h : failingCodes S sq points = []) :
    failingIssues S sq points = [] := by
  simp only [failingCodes, List.append_eq_nil] at h
  obtain ⟨⟨⟨⟨⟨⟨h1, h2⟩, h3⟩, h4⟩, h5⟩, h6⟩, h7⟩ := h
  have c1 := if_singleton_eq_nil _ _ h1
  have c3 := if_singleton_eq_nil _ _ h3
  have c4 := if_singleton_eq_nil _ _ h4
  have c5 := if_singleton_eq_nil _ _ h5
  have c6 := if_singleton_eq_nil _ _ h6
  have c7 := if_singleton_eq_nil _ _ h7
  have c2 : durationFails S points = false := by
    cases hb : durationFails S points <;> simp [hb] at h2 ⊢
  simp [failingIssues, c1, c2, c3, c4, c5, c6, c7]

theorem total_result (S : LapValidationSettings) (sq : ℚ → ℚ) (n : Int)
    (points : List TelemetryPoint) :
    (validate_lap_total S sq n points).result =
      (failingCodes S sq points).getLastD ValidationResult.VALID := by
  unfold validate_lap_total
  dsimp only
  rw [apply_ite ValidationReport.result]
  dsimp only
  rw [chain_result, chain_issues]
  simp only [List.nil_append]
  rw [← codes_getLastD]
  by_cases hP : (failingCodes S sq points).getLastD ValidationResult.VALID =
      ValidationResult.VALID ∧ failingIssues S sq points ≠ []
  · exact absurd (issues_nil_of_codes_nil S sq points (getLastD_valid_imp_nil S sq points hP.1))
      hP.2
  · rw [if_neg hP]

theorem total_issues (S : LapValidationSettings) (sq : ℚ → ℚ) (n : Int)
    (points : List TelemetryPoint) :
    (validate_lap_total S sq n points).issues = failingIssues S sq points := by
  unfold validate_lap_total
  dsimp only
  rw [apply_ite ValidationReport.issues]
  dsimp only
  rw [ite_self, chain_issues]
  simp

/-! ## Claims -/

/-- C2: `validate_lap` is claimed total over its input, including the
empty telemetry list; in fact on the empty list the invalid-position
percentage `(invalid_positions / len(points)) * 100` divides by zero
and `validate_lap` raises `ZeroDivisionError` instead of returning a
`ValidationReport`. -/
theorem C2_validate_lap_raises_on_empty :
    validate_lap defaultSettings sqZero 0 [] =
      Except.error PyError.zeroDivisionError := by
  norm_num [validate_lap, validate_data_sufficiency, validate_lap_duration,
    validate_positions, invalidPositionCount, pyDiv, defaultSettings,
    bind, Except.bind]

/-- C3 counterexample: from the fresh `ScoringState` of a new lap, a
first poll observing sector index 0 (≠ the fresh baseline -1) emits a
first snapshot whose trigger is `sector_complete`, not `periodic`. -/
theorem C3_counterexample_first_trigger_not_periodic :
    (runFirstSnapshot "lap_1" freshScoringState [obsSector0]).map
        ScoringSnapshot.update_trigger = some "sector_complete" ∧
      ("sector_complete" : String) ≠ "periodic" := by
  constructor
  · norm_num [runFirstSnapshot, collect_scoring_snapshot, determineTrigger, freshScoringState, obsSector0]
  · decide

/-- C4 counterexample: on a two-point lap (fewer points than
`min_telemetry_points`, so rule 1 fails) whose positions are both
invalid, the final result is `INVALID_POSITION` — rule 3 was still
evaluated and overwrote rule 1's failure code, refuting the claimed
short-circuit. -/
theorem C4_counterexample_no_short_circuit :
    (validate_lap defaultSettings sqZero 1 cexPoints).map ValidationReport.result =
        Except.ok ValidationResult.INVALID_POSITION ∧
      cexPoints.length < defaultSettings.min_telemetry_points ∧
      Issue.tooManyInvalidPositions 100 ∈
        reportIssues (validate_lap defaultSettings sqZero 1 cexPoints) := by
  have hlen : cexPoints.length ≠ 0 := by decide
  have c1 : sufficiencyFails defaultSettings cexPoints = true := by decide
  have c2 : durationFails defaultSettings cexPoints = true := by
    norm_num [durationFails, lapDurationOf, cexPoints, cexPoint0, cexPoint1, defaultSettings]
  have hpct : invalidPositionPct cexPoints = 100 := by
    norm_num [invalidPositionPct, invalidPositionCount, cexPoints, cexPoint0, cexPoint1,
      is_valid_position, List.filter]
  have c3 : positionsFails cexPoints = true := by
    norm_num [positionsFails, hpct]
  have c4 : gapsFails defaultSettings cexPoints = false := by
    norm_num [gapsFails, consecutiveGaps, cexPoints, cexPoint0, cexPoint1,
      defaultSettings, List.filter]
  have c5 : outliersFails defaultSettings sqZero cexPoints = false := by
    norm_num [outliersFails, cexPoints]
  have c6 : distanceFails defaultSettings sqZero cexPoints = false := by
    norm_num [distanceFails, estimate_track_length, cexPoints]
  have c7 : completenessFails cexPoints = false := by
    norm_num [completenessFails, missingPct, missingData, cexPoints, cexPoint0, cexPoint1,
      is_valid_telemetry_value, List.filter]
  refine ⟨?_, by decide, ?_⟩
  · rw [validate_lap_eq_total _ _ _ _ hlen]
    simp only [Except.map_ok, Except.map]
    rw [total_result]
    simp [failingCodes, c1, c2, c3, c4, c5, c6, c7]
  · rw [validate_lap_eq_total _ _ _ _ hlen]
    show Issue.tooManyInvalidPositions 100 ∈ (validate_lap_total defaultSettings sqZero 1 cexPoints).issues
    rw [total_issues]
    rw [← hpct]
    simp [failingIssues, c1, c2, c3, c4, c5, c6, c7]

/-- C6: the rate-limit window bound fails on the code.  With
`max_calls = 10` (the smallest `batch_size` allows) and a 60 s window,
the trace `rateStarts` — ten admitted requests at t = 0, one denied
request that sleeps out `time_until_next` and then issues its HTTP
attempt at t = 60 without being re-checked or recorded, then ten
admitted requests at t = 60.1 — puts 11 outbound attempts inside the
sliding window [30, 90), exceeding the configured limit of 10. -/
theorem C6_window_bound_violated :
    attemptsInWindow (run_attempts cexLimiter rateStarts) 30 60 = 11 ∧
      ¬ attemptsInWindow (run_attempts cexLimiter rateStarts) 30 60 ≤
        cexLimiter.max_calls := by
  have h : attemptsInWindow (run_attempts cexLimiter rateStarts) 30 60 = 11 := by
    norm_num [run_attempts, rate_limited_attempt, can_proceed, time_until_next,
      rateStarts, cexLimiter, attemptsInWindow, List.filter, List.replicate]
  exact ⟨h, by rw [h]; decide⟩

/-- C9 counterexample: with the client's backoff configuration
(initial 1 s, multiplier 2, cap 60 s, jitter on) and the legal jitter
draw 0 at every call, the total of 7 consecutive delays is 61.5 s,
strictly below the claimed lower bound Σ initial·m^i·0.5 = 63.5 s —
the claimed bound forgets that the cap applies before the jitter. -/
theorem C9_counterexample_lower_bound_fails :
    (0 : ℚ) ≤ rsZero 0 ∧ rsZero 0 < 1 ∧
      run_backoff rsZero (mkExponentialBackoff 1 60 2 true) 7 <
        ∑ i in Finset.range 7, (1 : ℚ) * 2 ^ i * (1 / 2) := by
  refine ⟨le_refl 0, by norm_num [rsZero], ?_⟩
  have h1 : run_backoff rsZero (mkExponentialBackoff 1 60 2 true) 7 = 123 / 2 := by
    norm_num [run_backoff, get_delay, mkExponentialBackoff, rsZero]
  have h2 : ∑ i in Finset.range 7, (1 : ℚ) * 2 ^ i * (1 / 2) = 127 / 2 := by
    norm_num [Finset.sum_range_succ]
  rw [h1, h2]
  norm_num

/-- C10: validation priority is last-failure-wins.  For every nonempty
parsed point list the final report's result is the code of the last
failing rule in the fixed evaluation order (`VALID` when none fails),
and the issues list records every failing rule's diagnostic in order. -/
theorem C10_last_failure_wins (S : LapValidationSettings) (sq : ℚ → ℚ) (n : Int)
    (points : List TelemetryPoint) (h : points ≠ []) :
    (validate_lap S sq n points).map ValidationReport.result =
        Except.ok ((failingCodes S sq points).getLastD ValidationResult.VALID) ∧
      reportIssues (validate_lap S sq n points) = failingIssues S sq points := by
  have hlen : points.length ≠ 0 := fun hc => h (List.length_eq_zero.mp hc)
  rw [validate_lap_eq_total S sq n points hlen]
  constructor
  · simp only [Except.map]
    rw [total_result]
  · show (validate_lap_total S sq n points).issues = failingIssues S sq points
    rw [total_issues]

/-- C10 witness: on the concrete two-point lap, the last failing rule
is the position rule and the report's result is `INVALID_POSITION`. -/
theorem C10_witness :
    (validate_lap defaultSettings sqZero 1 cexPoints).map ValidationReport.result =
      Except.ok ((failingCodes defaultSettings sqZero cexPoints).getLastD
        ValidationResult.VALID) :=
  (C10_last_failure_wins defaultSettings sqZero 1 cexPoints (by decide)).1

/-- C4 amended: rules 1–2 do not short-circuit the pipeline.  On every
nonempty parsed point list with too few points (rule 1 fails), the
insufficiency diagnostic is recorded, yet the later rules still run: a
failing position rule records its own diagnostic, and a failing
completeness rule (the last rule) determines the final result code. -/
theorem C4_rules_all_evaluated (S : LapValidationSettings) (sq : ℚ → ℚ) (n : Int)
    (points : List TelemetryPoint) (h : points ≠ [])
    (h1 : sufficiencyFails S points = true) :
    Issue.insufficientPoints points.length S.min_telemetry_points ∈
        reportIssues (validate_lap S sq n points) ∧
      (positionsFails points = true →
        Issue.tooManyInvalidPositions (invalidPositionPct points) ∈
          reportIssues (validate_lap S sq n points)) ∧
      (completenessFails points = true →
        (validate_lap S sq n points).map ValidationReport.result =
          Except.ok ValidationResult.INVALID_INCOMPLETE) := by
  have hlen : points.length ≠ 0 := fun hc => h (List.length_eq_zero.mp hc)
  have hiss : reportIssues (validate_lap S sq n points) = failingIssues S sq points := by
    rw [validate_lap_eq_total S sq n points hlen]
    show (validate_lap_total S sq n points).issues = failingIssues S sq points
    rw [total_issues]
  refine ⟨?_, ?_, ?_⟩
  · rw [hiss]
    simp [failingIssues, h1]
  · intro h3
    rw [hiss]
    simp [failingIssues, h3]
  · intro h7
    rw [validate_lap_eq_total S sq n points hlen]
    simp only [Except.map]
    rw [total_result, codes_getLastD]
    simp [h7]

/-- C4 amended witness: on the concrete two-point lap rule 1 fails and
the insufficiency diagnostic still appears in the report's issues. -/
theorem C4_witness :
    Issue.insufficientPoints cexPoints.length defaultSettings.min_telemetry_points ∈
      reportIssues (validate_lap defaultSettings sqZero 1 cexPoints) :=
  (C4_rules_all_evaluated defaultSettings sqZero 1 cexPoints (by decide) (by decide)).1

/-- C8: with `min_distance_percentage ≤ 100` (pydantic enforces
50–100), the distance-coverage rule never fires: the estimated track
length is either 0 (fewer than 10 points, check skipped) or exactly
the integrated distance, making the coverage exactly 100 %, so the
rule leaves every report unchanged — for every square-root model. -/
theorem C8_distance_coverage_noop (S : LapValidationSettings) (sq : ℚ → ℚ)
    (points : List TelemetryPoint) (r : ValidationReport)
    (h : S.min_distance_percentage ≤ 100) :
    validate_distance_coverage S sq points r = r := by
  unfold validate_distance_coverage
  by_cases h0 : points.length < 2
  · simp [h0]
  · simp only [h0, if_false]
    unfold estimate_track_length
    by_cases h10 : points.length < 10
    · simp [h10]
    · simp only [h10, if_false]
      by_cases hpos : calculate_lap_distance sq points > 0
      · have hne : calculate_lap_distance sq points ≠ 0 := ne_of_gt hpos
        have hcov : calculate_lap_distance sq points / calculate_lap_distance sq points * 100
            = (100 : ℚ) := by
          rw [div_self hne, one_mul]
        have hnlt : ¬ calculate_lap_distance sq points / calculate_lap_distance sq points * 100
            < S.min_distance_percentage := by
          rw [hcov]
          exact not_lt.mpr h
        simp [hpos, hnlt]
      · simp [hpos]

/-- C8 witness: with the default settings (minimum coverage 80 %) the
rule leaves the fresh report of the concrete two-point lap unchanged. -/
theorem C8_witness :
    validate_distance_coverage defaultSettings sqZero cexPoints cexReport = cexReport :=
  C8_distance_coverage_noop defaultSettings sqZero cexPoints cexReport
    (by norm_num [defaultSettings])

/-- C1: a processed lap reaches the `UPLOADING` state exactly when
`validate_lap` returned a report whose result is `VALID`; any other
outcome (an invalid report, or an exception escaping `validate_lap`)
leaves it `FAILED`; and the upload loop selects only laps that are in
state `UPLOADING` with the valid flag set — so no lap is uploaded
without having been validated Valid. -/
theorem C1_upload_only_validated_valid (S : LapValidationSettings) (sq : ℚ → ℚ)
    (lap : LapData) :
    ((process_lap S sq lap).state = LapState.UPLOADING ↔
      ∃ r, validate_lap S sq lap.lap_number lap.telemetry_points = Except.ok r ∧
        r.result = ValidationResult.VALID) ∧
    ((process_lap S sq lap).state = LapState.UPLOADING ∨
      (process_lap S sq lap).state = LapState.FAILED) ∧
    ((process_lap S sq lap).state = LapState.UPLOADING →
      (process_lap S sq lap).valid = true) ∧
    (∀ (pending : List LapData) (l : LapData), l ∈ laps_to_upload pending →
      l.state = LapState.UPLOADING ∧ l.valid = true) := by
  have hsel : ∀ (pending : List LapData) (l : LapData), l ∈ laps_to_upload pending →
      l.state = LapState.UPLOADING ∧ l.valid = true := by
    intro pending l hl
    unfold laps_to_upload at hl
    rw [List.mem_filter] at hl
    simpa using hl.2
  refine ⟨?_, ?_, ?_, hsel⟩
  · cases hv : validate_lap S sq lap.lap_number lap.telemetry_points with
    | ok r =>
      cases hb : r.is_valid
      · have hres : r.result ≠ ValidationResult.VALID := by
          simpa [ValidationReport.is_valid] using hb
        constructor
        · intro hst
          exfalso
          simp [process_lap, hv, hb] at hst
        · rintro ⟨r', hr', hres'⟩
          injection hr' with hrr
          exact absurd (hrr ▸ hres') hres
      · have hres : r.result = ValidationResult.VALID := by
          simpa [ValidationReport.is_valid] using hb
        constructor
        · intro _
          exact ⟨r, rfl, hres⟩
        · intro _
          simp [process_lap, hv, hb]
    | error e =>
      constructor
      · intro hst
        exfalso
        simp [process_lap, hv] at hst
      · rintro ⟨r', hr', _⟩
        exact absurd hr' (by simp)
  · cases hv : validate_lap S sq lap.lap_number lap.telemetry_points with
    | ok r =>
      cases hb : r.is_valid
      · right; simp [process_lap, hv, hb]
      · left; simp [process_lap, hv, hb]
    | error e => right; simp [process_lap, hv]
  · cases hv : validate_lap S sq lap.lap_number lap.telemetry_points with
    | ok r =>
      cases hb : r.is_valid
      · intro hst
        exfalso
        simp [process_lap, hv, hb] at hst
      · intro _
        simp [process_lap, hv, hb]
    | error e =>
      intro hst
      exfalso
      simp [process_lap, hv] at hst

/-- C1 witness: a lap in state `UPLOADING` with the valid flag set is
selected by the upload loop, and the selection guarantees both
properties. -/
theorem C1_witness : lapU.state = LapState.UPLOADING ∧ lapU.valid = true :=
  (C1_upload_only_validated_valid defaultSettings sqZero lapU).2.2.2 [lapU] lapU
    (by decide)

/-- C7: the scoring update trigger is determined by the first matching
condition in the fixed order (sector change, then positive changed lap
time, then position change, then the 1-second periodic deadline), no
snapshot is emitted when none matches, and every emission updates all
four last-seen fields of `ScoringState` from the observed values. -/
theorem C7_trigger_first_match (lap_id : String) (st : ScoringState) (o : ScoringObs) :
    (o.sector_index ≠ st.last_sector_index →
      (collect_scoring_snapshot lap_id st o).map (fun x => x.1.update_trigger) =
        some "sector_complete") ∧
    (o.sector_index = st.last_sector_index →
      (o.last_laptime ≠ st.last_lap_time ∧ o.last_laptime > 0) →
      (collect_scoring_snapshot lap_id st o).map (fun x => x.1.update_trigger) =
        some "lap_complete") ∧
    (o.sector_index = st.last_sector_index →
      ¬ (o.last_laptime ≠ st.last_lap_time ∧ o.last_laptime > 0) →
      o.place ≠ st.last_position →
      (collect_scoring_snapshot lap_id st o).map (fun x => x.1.update_trigger) =
        some "position_change") ∧
    (o.sector_index = st.last_sector_index →
      ¬ (o.last_laptime ≠ st.last_lap_time ∧ o.last_laptime > 0) →
      o.place = st.last_position →
      o.elapsed - st.last_snapshot_time ≥ 1 →
      (collect_scoring_snapshot lap_id st o).map (fun x => x.1.update_trigger) =
        some "periodic") ∧
    (o.sector_index = st.last_sector_index →
      ¬ (o.last_laptime ≠ st.last_lap_time ∧ o.last_laptime > 0) →
      o.place = st.last_position →
      ¬ o.elapsed - st.last_snapshot_time ≥ 1 →
      collect_scoring_snapshot lap_id st o = none) ∧
    (∀ (snap : ScoringSnapshot) (st' : ScoringState),
      collect_scoring_snapshot lap_id st o = some (snap, st') →
      st'.last_sector_index = o.sector_index ∧ st'.last_lap_time = o.last_laptime ∧
        st'.last_position = o.place ∧ st'.last_snapshot_time = o.elapsed ∧
        st'.snapshot_count = st.snapshot_count + 1) := by
  refine ⟨?_, ?_, ?_, ?_, ?_, ?_⟩
  · intro h1
    simp [collect_scoring_snapshot, determineTrigger, h1]
  · intro h1 h2
    simp [collect_scoring_snapshot, determineTrigger, h1, h2]
  · intro h1 h2 h3
    simp [collect_scoring_snapshot, determineTrigger, h1, h2, h3]
  · intro h1 h2 h3 h4
    simp [collect_scoring_snapshot, determineTrigger, h1, h2, h3, h4]
  · intro h1 h2 h3 h4
    simp [collect_scoring_snapshot, determineTrigger, h1, h2, h3, h4]
  · intro snap st' h
    unfold collect_scoring_snapshot at h
    cases htrig : determineTrigger st o with
    | none => rw [htrig] at h; exact absurd h (by simp)
    | some trig =>
      rw [htrig] at h
      rw [Option.some.injEq] at h
      have h2 : ScoringState.mk o.sector_index o.last_laptime o.place o.elapsed
          (st.snapshot_count + 1) = st' := congrArg Prod.snd h
      subst h2
      exact ⟨rfl, rfl, rfl, rfl, rfl⟩

/-- C7 witness: on a concrete observation whose sector index differs
from the fresh baseline, the trigger is `sector_complete`. -/
theorem C7_witness :
    (collect_scoring_snapshot "lap_1" freshScoringState obsSector0).map
      (fun x => x.1.update_trigger) = some "sector_complete" :=
  (C7_trigger_first_match "lap_1" freshScoringState obsSector0).1 (by decide)

/-- A first snapshot emitted from the fresh state has the trigger
`periodic` exactly when the emitting observation matched every fresh
baseline: sector index -1, non-positive last lap time, position 0. -/
theorem collect_fresh_periodic_iff (lap_id : String) (o : ScoringObs)
    (s : ScoringSnapshot) (st' : ScoringState)
    (hc : collect_scoring_snapshot lap_id freshScoringState o = some (s, st')) :
    s.update_trigger = "periodic" ↔
      s.sector_index = -1 ∧ ¬ s.last_laptime > 0 ∧ s.place = 0 := by
  unfold collect_scoring_snapshot at hc
  by_cases b1 : o.sector_index = (-1 : Int)
  · by_cases b2 : o.last_laptime > 0
    · have hne : o.last_laptime ≠ 0 := ne_of_gt b2
      have htr : determineTrigger freshScoringState o = some "lap_complete" := by
        simp [determineTrigger, freshScoringState, b1, b2, hne]
      rw [htr, Option.some.injEq] at hc
      have hs : ScoringSnapshot.mk lap_id o.elapsed "lap_complete" o.sector_index
          o.last_laptime o.place = s := congrArg Prod.fst hc
      subst hs
      exact iff_of_false (show ¬ ("lap_complete" : String) = "periodic" by decide)
        (fun hh => hh.2.1 b2)
    · by_cases b3 : o.place = (0 : Int)
      · by_cases b4 : (1 : ℚ) ≤ o.elapsed
        · have htr : determineTrigger freshScoringState o = some "periodic" := by
            simp [determineTrigger, freshScoringState, b1, b2, b3, b4, sub_zero]
          rw [htr, Option.some.injEq] at hc
          have hs : ScoringSnapshot.mk lap_id o.elapsed "periodic" o.sector_index
              o.last_laptime o.place = s := congrArg Prod.fst hc
          subst hs
          exact iff_of_true rfl ⟨b1, b2, b3⟩
        · have htr : determineTrigger freshScoringState o = none := by
            simp [determineTrigger, freshScoringState, b1, b2, b3, sub_zero, not_le.mp b4]
          rw [htr] at hc
          exact absurd hc (by simp)
      · have htr : determineTrigger freshScoringState o = some "position_change" := by
          simp [determineTrigger, freshScoringState, b1, b2, b3]
        rw [htr, Option.some.injEq] at hc
        have hs : ScoringSnapshot.mk lap_id o.elapsed "position_change" o.sector_index
            o.last_laptime o.place = s := congrArg Prod.fst hc
        subst hs
        exact iff_of_false (show ¬ ("position_change" : String) = "periodic" by decide)
          (fun hh => b3 hh.2.2)
  · have htr : determineTrigger freshScoringState o = some "sector_complete" := by
      simp [determineTrigger, freshScoringState, b1]
    rw [htr, Option.some.injEq] at hc
    have hs : ScoringSnapshot.mk lap_id o.elapsed "sector_complete" o.sector_index
        o.last_laptime o.place = s := congrArg Prod.fst hc
    subst hs
    exact iff_of_false (show ¬ ("sector_complete" : String) = "periodic" by decide)
      (fun hh => b1 hh.1)

/-- C3 amended: after a lap rotation installs a fresh `ScoringState`,
polls that emit nothing leave the state untouched, so the first poll
that returns a snapshot evaluates the trigger chain against the fresh
baselines; its trigger is `periodic` if and only if the observed
sector index is -1, the observed last lap time is not positive, and
the observed position is 0 — otherwise the first matching change
condition (typically `sector_complete`) supplies the trigger. -/
theorem C3_first_snapshot_periodic_iff (lap_id : String) (l : List ScoringObs)
    (snap : ScoringSnapshot)
    (h : runFirstSnapshot lap_id freshScoringState l = some snap) :
    snap.update_trigger = "periodic" ↔
      snap.sector_index = -1 ∧ ¬ snap.last_laptime > 0 ∧ snap.place = 0 := by
  induction l with
  | nil => exact absurd h (by simp [runFirstSnapshot])
  | cons o rest ih =>
    rw [runFirstSnapshot] at h
    cases hc : collect_scoring_snapshot lap_id freshScoringState o with
    | none =>
      rw [hc] at h
      exact ih h
    | some pair =>
      obtain ⟨s, st'⟩ := pair
      rw [hc] at h
      rw [Option.some.injEq] at h
      subst h
      exact collect_fresh_periodic_iff lap_id o s st' hc

/-- C3 amended witness: an observation agreeing with every fresh
baseline emits a first snapshot, and its trigger is `periodic`. -/
theorem C3_witness :
    snapFreshBaseline.update_trigger = "periodic" ↔
      snapFreshBaseline.sector_index = -1 ∧ ¬ snapFreshBaseline.last_laptime > 0 ∧
        snapFreshBaseline.place = 0 :=
  C3_first_snapshot_periodic_iff "lap_1" [obsFreshBaseline] snapFreshBaseline
    (by norm_num [runFirstSnapshot, collect_scoring_snapshot, determineTrigger,
      freshScoringState, obsFreshBaseline, snapFreshBaseline])

theorem request_loop_client_error (outcomes : ℕ → AttemptOutcome) (retries : ℕ)
    (status : ℕ) (body : String) (hs4 : 400 ≤ status) (hs5 : status < 500)
    (hs9 : status ≠ 429) :
    ∀ (remaining made j : ℕ) (le : Option String), j < remaining →
      (∀ i, i < j → retriableOutcome (outcomes (made + i))) →
      outcomes (made + j) = AttemptOutcome.response status body →
      request_loop outcomes retries remaining made le =
        ({ success := false, error := some (errorMessageOf status body)
           status_code := some status }, made + j + 1) := by
  intro remaining
  induction remaining with
  | zero =>
    intro made j le hj
    exact absurd hj (Nat.not_lt_zero j)
  | succ rem ih =>
    intro made j le hj hpre hout
    cases j with
    | zero =>
      rw [Nat.add_zero] at hout
      have h2xx : ¬ (200 ≤ status ∧ status < 300) := by omega
      have h4xx : 400 ≤ status ∧ status < 500 ∧ status ≠ 429 := ⟨hs4, hs5, hs9⟩
      simp [request_loop, hout, h2xx, h4xx]
    | succ j' =>
      have hr := hpre 0 (Nat.succ_pos j')
      rw [Nat.add_zero] at hr
      have harith : made + (j' + 1) = made + 1 + j' := by omega
      have hpre' : ∀ i, i < j' → retriableOutcome (outcomes (made + 1 + i)) := by
        intro i hi
        have := hpre (i + 1) (by omega)
        rwa [show made + (i + 1) = made + 1 + i by omega] at this
      have hout' : outcomes (made + 1 + j') = AttemptOutcome.response status body := by
        rwa [harith] at hout
      cases ho : outcomes made with
      | response s' b' =>
        rw [ho] at hr
        have h2xx : ¬ (200 ≤ s' ∧ s' < 300) := by
          rcases hr with h | ⟨h, h'⟩ <;> omega
        have h4xx : ¬ (400 ≤ s' ∧ s' < 500 ∧ s' ≠ 429) := by
          rcases hr with h | ⟨h, h'⟩ <;> omega
        have := ih (made + 1) j'
          (some ("HTTP " ++ toString s' ++ ": " ++ errorMessageOf s' b'))
          (by omega) hpre' hout'
        rw [show made + (j' + 1) + 1 = made + 1 + j' + 1 by omega]
        simpa [request_loop, ho, h2xx, h4xx] using this
      | exception msg =>
        have := ih (made + 1) j' (some msg) (by omega) hpre' hout'
        rw [show made + (j' + 1) + 1 = made + 1 + j' + 1 by omega]
        simpa [request_loop, ho] using this

theorem request_loop_all_retriable (outcomes : ℕ → AttemptOutcome) (retries : ℕ) :
    ∀ (remaining made : ℕ) (le : Option String),
      (∀ i, i < remaining → retriableOutcome (outcomes (made + i))) →
      (request_loop outcomes retries remaining made le).2 = made + remaining ∧
        (request_loop outcomes retries remaining made le).1.success = false := by
  intro remaining
  induction remaining with
  | zero =>
    intro made le _
    simp [request_loop]
  | succ rem ih =>
    intro made le hpre
    have hr := hpre 0 (Nat.succ_pos rem)
    rw [Nat.add_zero] at hr
    have hpre' : ∀ i, i < rem → retriableOutcome (outcomes (made + 1 + i)) := by
      intro i hi
      have := hpre (i + 1) (by omega)
      rwa [show made + (i + 1) = made + 1 + i by omega] at this
    cases ho : outcomes made with
    | response s' b' =>
      rw [ho] at hr
      have h2xx : ¬ (200 ≤ s' ∧ s' < 300) := by
        rcases hr with h | ⟨h, h'⟩ <;> omega
      have h4xx : ¬ (400 ≤ s' ∧ s' < 500 ∧ s' ≠ 429) := by
        rcases hr with h | ⟨h, h'⟩ <;> omega
      have hrec := ih (made + 1)
        (some ("HTTP " ++ toString s' ++ ": " ++ errorMessageOf s' b')) hpre'
      constructor
      · rw [show made + (rem + 1) = made + 1 + rem by omega]
        simpa [request_loop, ho, h2xx, h4xx] using hrec.1
      · simpa [request_loop, ho, h2xx, h4xx] using hrec.2
    | exception msg =>
      have hrec := ih (made + 1) (some msg) hpre'
      constructor
      · rw [show made + (rem + 1) = made + 1 + rem by omega]
        simpa [request_loop, ho] using hrec.1
      · simpa [request_loop, ho] using hrec.2

/-- C5: the retry policy of `_make_request`.  If the first `j` attempts
come back retriable (HTTP 429 or 5xx) and attempt `j` (within the
budget) returns a 4xx status other than 429, the loop stops at once
with a failed `APIResponse` carrying that status after exactly `j + 1`
attempts.  If every available attempt comes back retriable, the loop
exhausts all `retry_attempts + 1` attempts and returns a failed
`APIResponse`. -/
theorem C5_retry_policy (outcomes : ℕ → AttemptOutcome) (retries : ℕ) :
    (∀ (j status : ℕ) (body : String), j ≤ retries →
      (∀ i, i < j → retriableOutcome (outcomes i)) →
      outcomes j = AttemptOutcome.response status body →
      400 ≤ status → status < 500 → status ≠ 429 →
      make_request outcomes retries =
        ({ success := false, error := some (errorMessageOf status body)
           status_code := some status }, j + 1)) ∧
    ((∀ i, i ≤ retries → retriableOutcome (outcomes i)) →
      (make_request outcomes retries).2 = retries + 1 ∧
        (make_request outcomes retries).1.success = false) := by
  constructor
  · intro j status body hj hpre hout h4 h5 h9
    have := request_loop_client_error outcomes retries status body h4 h5 h9
      (retries + 1) 0 j none (by omega) (by intro i hi; simpa using hpre i hi)
      (by simpa using hout)
    simpa [make_request] using this
  · intro hall
    have := request_loop_all_retriable outcomes retries (retries + 1) 0 none
      (by intro i hi; simpa using hall i (by omega))
    simpa [make_request] using this

/-- C5 witness: a 503 on the first attempt is retried, and the 404 on
the second attempt ends the request at once with a failed response
after exactly 2 attempts. -/
theorem C5_witness :
    make_request cexOutcomes 3 =
      ({ success := false, error := some (errorMessageOf 404 "not found")
         status_code := some 404 }, 2) :=
  (C5_retry_policy cexOutcomes 3).1 1 404 "not found" (by omega)
    (fun i hi => by
      have h0 : i = 0 := by omega
      subst h0
      simp [cexOutcomes, retriableOutcome, retriableStatus])
    (by simp [cexOutcomes]) (by omega) (by omega) (by omega)

theorem run_backoff_bounds_aux (m maxD : ℚ) (hm : 0 ≤ m) (hmax : 0 ≤ maxD) :
    ∀ (k : ℕ) (rs : ℕ → ℚ) (b : ExponentialBackoff),
      b.multiplier = m → b.max_delay = maxD → b.jitter = true →
      0 ≤ b.current_delay → (∀ i, 0 ≤ rs i ∧ rs i < 1) →
      (∑ i in Finset.range k, (1 / 2) * min (b.current_delay * m ^ i) maxD) ≤
          run_backoff rs b k ∧
        run_backoff rs b k ≤
          ∑ i in Finset.range k, min (b.current_delay * m ^ i) maxD := by
  intro k
  induction k with
  | zero =>
    intro rs b _ _ _ _ _
    simp [run_backoff]
  | succ k ih =>
    intro rs b hbm hbmax hbj hc hrs
    subst hbm
    subst hbmax
    have hmin : (0 : ℚ) ≤ min b.current_delay b.max_delay := le_min hc hmax
    have hr0 := hrs 0
    have hstep_low : (1 / 2) * min b.current_delay b.max_delay ≤
        min b.current_delay b.max_delay * (1 / 2 + rs 0 * (1 / 2)) := by
      have h1 : (1 / 2 : ℚ) ≤ 1 / 2 + rs 0 * (1 / 2) := by nlinarith [hr0.1]
      calc (1 / 2) * min b.current_delay b.max_delay
          = min b.current_delay b.max_delay * (1 / 2) := by ring
        _ ≤ min b.current_delay b.max_delay * (1 / 2 + rs 0 * (1 / 2)) :=
            mul_le_mul_of_nonneg_left h1 hmin
    have hstep_high : min b.current_delay b.max_delay * (1 / 2 + rs 0 * (1 / 2)) ≤
        min b.current_delay b.max_delay := by
      have h1 : (1 / 2 + rs 0 * (1 / 2) : ℚ) ≤ 1 := by nlinarith [hr0.2]
      calc min b.current_delay b.max_delay * (1 / 2 + rs 0 * (1 / 2))
          ≤ min b.current_delay b.max_delay * 1 := mul_le_mul_of_nonneg_left h1 hmin
        _ = min b.current_delay b.max_delay := mul_one _
    have hrun : run_backoff rs b (k + 1) =
        min b.current_delay b.max_delay * (1 / 2 + rs 0 * (1 / 2)) +
          run_backoff (fun i => rs (i + 1))
            { b with current_delay := b.current_delay * b.multiplier
                     attempt := b.attempt + 1 } k := by
      rw [run_backoff]
      simp [get_delay, hbj]
    have ihb := ih (fun i => rs (i + 1))
      { b with current_delay := b.current_delay * b.multiplier
               attempt := b.attempt + 1 }
      rfl rfl hbj (mul_nonneg hc hm) (fun i => hrs (i + 1))
    have hsum_low : ∑ i in Finset.range (k + 1),
        (1 / 2) * min (b.current_delay * b.multiplier ^ i) b.max_delay =
        (1 / 2) * min b.current_delay b.max_delay +
          ∑ i in Finset.range k,
            (1 / 2) * min (b.current_delay * b.multiplier * b.multiplier ^ i) b.max_delay := by
      rw [Finset.sum_range_succ']
      rw [pow_zero, mul_one, add_comm]
      congr 1
      apply Finset.sum_congr rfl
      intro i _
      rw [show b.current_delay * b.multiplier ^ (i + 1)
        = b.current_delay * b.multiplier * b.multiplier ^ i by ring]
    have hsum_high : ∑ i in Finset.range (k + 1),
        min (b.current_delay * b.multiplier ^ i) b.max_delay =
        min b.current_delay b.max_delay +
          ∑ i in Finset.range k,
            min (b.current_delay * b.multiplier * b.multiplier ^ i) b.max_delay := by
      rw [Finset.sum_range_succ']
      rw [pow_zero, mul_one, add_comm]
      congr 1
      apply Finset.sum_congr rfl
      intro i _
      rw [show b.current_delay * b.multiplier ^ (i + 1)
        = b.current_delay * b.multiplier * b.multiplier ^ i by ring]
    constructor
    · rw [hrun, hsum_low]
      exact add_le_add hstep_low ihb.1
    · rw [hrun, hsum_high]
      exact add_le_add hstep_high ihb.2

/-- C9 amended: for every jitter draw sequence with values in [0, 1),
the total of `k` consecutive backoff delays lies between
Σ 0.5·min(max_delay, d·m^i) and Σ min(max_delay, d·m^i) for i < k —
the lower bound must apply the cap before halving (the claim's
uncapped lower bound Σ 0.5·d·m^i fails once the cap binds, see the
counterexample). -/
theorem C9_backoff_total_bounds (d maxD m : ℚ) (rs : ℕ → ℚ) (k : ℕ)
    (hd : 0 ≤ d) (hm : 0 ≤ m) (hmax : 0 ≤ maxD)
    (hrs : ∀ i, 0 ≤ rs i ∧ rs i < 1) :
    (∑ i in Finset.range k, (1 / 2) * min (d * m ^ i) maxD) ≤
        run_backoff rs (mkExponentialBackoff d maxD m true) k ∧
      run_backoff rs (mkExponentialBackoff d maxD m true) k ≤
        ∑ i in Finset.range k, min (d * m ^ i) maxD := by
  have := run_backoff_bounds_aux m maxD hm hmax k rs
    (mkExponentialBackoff d maxD m true) rfl rfl rfl hd hrs
  simpa [mkExponentialBackoff] using this

/-- C9 amended witness: with initial 1 s, multiplier 2, cap 60 s and
the all-zero jitter draw, two delays respect the capped bounds. -/
theorem C9_witness :
    (∑ i in Finset.range 2, (1 / 2 : ℚ) * min ((1 : ℚ) * 2 ^ i) 60) ≤
        run_backoff rsZero (mkExponentialBackoff 1 60 2 true) 2 ∧
      run_backoff rsZero (mkExponentialBackoff 1 60 2 true) 2 ≤
        ∑ i in Finset.range 2, min ((1 : ℚ) * 2 ^ i) 60 :=
  C9_backoff_total_bounds 1 60 2 rsZero 2 (by norm_num) (by norm_num) (by norm_num)
    (fun i => ⟨by norm_num [rsZero], by norm_num [rsZero]⟩)

end Herbie
